import Mathlib

/-
Verification development for the Amber shader-job converter
(gfauto/amber_converter.py).

The Python module is shallowly embedded below.  JSON parsing is an external
collaborator of the module (the module calls json.loads and then walks the
parsed structure), so every embedded function takes the parsed JSON value
directly; Python dicts preserve insertion order, so a JSON object is embedded
as an association list in that order.  Python exceptions (AssertionError from
check(), ValueError, KeyError, IndexError) are embedded as Except.error with
a message identifying the exception; a function that can raise returns
Except String String instead of String.
-/

namespace AmberConverter

/-- A JSON scalar as produced by json.loads and rendered by Python str():
integers render via decimal notation, floats carry their str() rendering. -/
inductive PyVal where
  | pint (n : Int)
  | pfloat (lit : String)
deriving DecidableEq

/-- Python str() on a JSON scalar. -/
def pyStr : PyVal → String
  | PyVal.pint n => toString n
  | PyVal.pfloat lit => lit

/-- Characters stripped by Python str.rstrip() with no arguments. -/
def pyIsSpace (c : Char) : Bool :=
  c = ' ' || c = '\t' || c = '\n' || c = '\r' || c = '\x0b' || c = '\x0c'

/-- Python str.rstrip() with no arguments: drop trailing whitespace. -/
def pyRstrip (s : String) : String :=
  String.mk (s.data.reverse.dropWhile pyIsSpace).reverse

/-- Python str.split with separator a single newline, on the character list:
split into the (possibly empty) chunks between newline characters. -/
def splitNlChars : List Char → List (List Char)
  | [] => [[]]
  | c :: rest =>
    let r := splitNlChars rest
    if c = '\n' then [] :: r
    else
      match r with
      | [] => [[c]]
      | l :: ls => (c :: l) :: ls

/-- Python text.split of a string on a single newline separator. -/
def pySplitNl (text : String) : List String :=
  (splitNlChars text.data).map (fun cs => String.mk cs)

/-- gfauto.util.check(condition, AssertionError(msg)): raises when the
condition is false. -/
def check (cond : Prop) [Decidable cond] (msg : String) : Except String Unit :=
  if cond then Except.ok () else Except.error msg

/-- Python truthiness of an Optional[str]: None and the empty string are
falsy. -/
def truthyStr : Option String → Bool
  | none => false
  | some s => !s.isEmpty

/-- Python truthiness of an Optional[List[str]]: None and the empty list are
falsy. -/
def truthyList : Option (List String) → Bool
  | none => false
  | some l => !l.isEmpty

def AMBER_FENCE_TIMEOUT_MS : Nat := 60000

/-- AmberfySettings from amber_converter.py. -/
structure AmberfySettings where
  copyright_header_text : Option String := none
  add_generated_comment : Bool := false
  add_graphics_fuzz_comment : Bool := false
  short_description : Option String := none
  comment_text : Option String := none
  use_default_fence_timeout : Bool := false
  extra_commands : Option String := none
  spirv_opt_args : Option (List String) := none
  spirv_opt_hash : Option String := none

/-- get_spirv_opt_args_comment from amber_converter.py. -/
def get_spirv_opt_args_comment (spirv_opt_args : List String)
    (spirv_opt_hash : Option String) : String :=
  if spirv_opt_args.isEmpty then ""
  else
    let result := "# Optimized using spirv-opt with the following arguments:\n"
    let args := spirv_opt_args.map (fun arg => "# " ++ "\x27" ++ arg ++ "\x27")
    let result := result ++ String.intercalate "\n" args
    let result :=
      if truthyStr spirv_opt_hash then
        result ++ "\n# spirv-opt commit hash: " ++ spirv_opt_hash.getD ""
      else result
    result ++ "\n\n"

/-- The blank-line-stripping step of get_text_as_comment: two Python while
loops pop empty lines from the front and the back of the line list; when
every line is empty the front loop empties the list and indexing raises
IndexError. -/
def strip_empty_lines (lines : List String) : Except String (List String) :=
  let lines := lines.dropWhile String.isEmpty
  if lines.isEmpty then Except.error "IndexError"
  else Except.ok (lines.reverse.dropWhile String.isEmpty).reverse

/-- get_text_as_comment from amber_converter.py. -/
def get_text_as_comment (text : String) : Except String String := do
  let lines := pySplitNl text
  let lines ← strip_empty_lines lines
  Except.ok (String.intercalate "\n" (lines.map (fun line => pyRstrip ("# " ++ line))))

/-- A uniform entry in the shader-job JSON: func/args/binding. -/
structure UniformEntry where
  func : String
  args : List PyVal
  binding : Int
deriving DecidableEq

/-- One SSBO field of the compute-metadata block: type name and data list. -/
structure ComputeField where
  type : String
  data : List PyVal
deriving DecidableEq

/-- The buffer part of the compute-metadata block. -/
structure ComputeBuffer where
  binding : Int
  fields : List ComputeField
deriving DecidableEq

/-- The value of the reserved compute key of the shader-job JSON. -/
structure ComputeInfo where
  num_groups : List Int
  buffer : ComputeBuffer
deriving DecidableEq

/-- A value of the top-level shader-job JSON object: either a uniform entry
or the compute-metadata block stored under the reserved key. -/
inductive JEntry where
  | uniformE (e : UniformEntry)
  | computeE (c : ComputeInfo)
deriving DecidableEq

/-- The parsed top-level shader-job JSON object, in insertion order. -/
abbrev ShaderJobJson := List (String × JEntry)

/-- The ssbo_types table of amberscript_comp_buff_def. -/
def ssbo_types : List (String × String) :=
  [("int", "int32"),
   ("ivec2", "vec2<int32>"),
   ("ivec3", "vec3<int32>"),
   ("ivec4", "vec4<int32>"),
   ("uint", "uint32"),
   ("float", "float"),
   ("vec2", "vec2<float>"),
   ("vec3", "vec3<float>"),
   ("vec4", "vec4<float>")]

/-- amberscript_comp_buff_def from amber_converter.py, on the parsed JSON.
Raises (Except.error) on: missing compute key, empty SSBO field list, mixed
field types, unsupported SSBO type, and, when make_empty_buffer is true and
the flattened data is empty, the IndexError of indexing item 0. -/
def amberscript_comp_buff_def (comp : ShaderJobJson) (make_empty_buffer : Bool) :
    Except String String := do
  check ((comp.lookup "$compute").isSome = true) "Cannot find $compute key in JSON file"
  let compute_info ←
    match comp.lookup "$compute" with
    | some (JEntry.computeE c) => Except.ok c
    | some (JEntry.uniformE _) => Except.error "KeyError"
    | none => Except.error "KeyError"
  check (0 < compute_info.buffer.fields.length) "Compute shader test with empty SSBO"
  let field_types_set := (compute_info.buffer.fields.map (fun field => field.type)).dedup
  check (field_types_set.length = 1) "All field types must be the same"
  match compute_info.buffer.fields with
  | [] => Except.error "IndexError"
  | field0 :: _ =>
    let ssbo_type := field0.type
    match ssbo_types.lookup ssbo_type with
    | none => Except.error ("Unsupported SSBO datum type: " ++ ssbo_type)
    | some ssbo_type_amber =>
      let field_data := compute_info.buffer.fields.map (fun field => field.data)
      let field_data_flattened := field_data.flatten
      let field_data_flattened_str := field_data_flattened.map pyStr
      if make_empty_buffer then
        match field_data_flattened_str with
        | [] => Except.error "IndexError"
        | first :: _ =>
          Except.ok ("BUFFER \x7b\x7d DATA_TYPE " ++ ssbo_type_amber ++ " SIZE " ++
            toString field_data_flattened_str.length ++ " " ++ first ++ "\n")
      else
        Except.ok ("BUFFER \x7b\x7d DATA_TYPE " ++ ssbo_type_amber ++ " DATA\n" ++
          " " ++ String.intercalate " " field_data_flattened_str ++ "\n" ++ "END\n")

/-- amberscript_comp_num_groups_def from amber_converter.py, on the parsed
JSON.  Reads shader_job_info with the compute key and num_groups. -/
def amberscript_comp_num_groups_def (shader_job_info : ShaderJobJson) :
    Except String String :=
  match shader_job_info.lookup "$compute" with
  | some (JEntry.computeE c) =>
      Except.ok (String.intercalate " " (c.num_groups.map (fun dimension => toString dimension)))
  | _ => Except.error "KeyError"

/-- amberscript_uniform_buffer_bind from amber_converter.py: the loop over
the JSON items, embedded as recursion over the association list. -/
def amberscript_uniform_buffer_bind : ShaderJobJson → String → Except String String
  | [], _ => Except.ok ""
  | (name, entry) :: rest, pfx =>
    if name = "$compute" then amberscript_uniform_buffer_bind rest pfx
    else
      match entry with
      | JEntry.computeE _ => Except.error "KeyError"
      | JEntry.uniformE e => do
        let restStr ← amberscript_uniform_buffer_bind rest pfx
        Except.ok ("  BIND BUFFER " ++ pfx ++ "_" ++ name ++
          " AS uniform DESCRIPTOR_SET 0 BINDING " ++ toString e.binding ++ "\n" ++ restStr)

/-- The uniform_types table of amberscript_uniform_buffer_def. -/
def uniform_types : List (String × String) :=
  [("glUniform1i", "int32"),
   ("glUniform2i", "vec2<int32>"),
   ("glUniform3i", "vec3<int32>"),
   ("glUniform4i", "vec4<int32>"),
   ("glUniform1f", "float"),
   ("glUniform2f", "vec2<float>"),
   ("glUniform3f", "vec3<float>"),
   ("glUniform4f", "vec4<float>"),
   ("glUniformMatrix2fv", "mat2x2<float>"),
   ("glUniformMatrix2x3fv", "mat2x3<float>"),
   ("glUniformMatrix2x4fv", "mat2x4<float>"),
   ("glUniformMatrix3x2fv", "mat3x2<float>"),
   ("glUniformMatrix3fv", "mat3x3<float>"),
   ("glUniformMatrix3x4fv", "mat3x4<float>"),
   ("glUniformMatrix4x2fv", "mat4x2<float>"),
   ("glUniformMatrix4x3fv", "mat4x3<float>"),
   ("glUniformMatrix4fv", "mat4x4<float>")]

/-- The inner loop of amberscript_uniform_buffer_def that renders the args of
one uniform entry: each arg is appended preceded by one space. -/
def uniform_args_render (args : List PyVal) : String :=
  String.join (args.map (fun arg => " " ++ pyStr arg))

/-- The per-item loop of amberscript_uniform_buffer_def, embedded as
recursion over the association list.  An unknown setter name raises
ValueError (the UnsupportedType failure of the spec). -/
def amberscript_uniform_buffer_def_entries : ShaderJobJson → String → Except String String
  | [], _ => Except.ok ""
  | (name, entry) :: rest, pfx =>
    if name = "$compute" then amberscript_uniform_buffer_def_entries rest pfx
    else
      match entry with
      | JEntry.computeE _ => Except.error "KeyError"
      | JEntry.uniformE e =>
        match uniform_types.lookup e.func with
        | none => Except.error ("Error: unknown uniform type for function: " ++ e.func)
        | some uniform_type => do
          let restStr ← amberscript_uniform_buffer_def_entries rest pfx
          Except.ok ("# " ++ name ++ "\n" ++
            "BUFFER " ++ pfx ++ "_" ++ name ++ " DATA_TYPE " ++ uniform_type ++ " DATA\n" ++
            uniform_args_render e.args ++ "\n" ++ "END\n" ++ restStr)

/-- amberscript_uniform_buffer_def from amber_converter.py. -/
def amberscript_uniform_buffer_def (uniforms : ShaderJobJson) (pfx : String) :
    Except String String := do
  let entries ← amberscript_uniform_buffer_def_entries uniforms pfx
  Except.ok ("# uniforms for " ++ pfx ++ "\n" ++ "\n" ++ entries)

/-- translate_type_for_amber from amber_converter.py. -/
def translate_type_for_amber (type_name : String) : String :=
  if type_name = "bool" then "uint" else type_name

/-- ShaderType from amber_converter.py. -/
inductive ShaderType where
  | fragment
  | vertex
  | compute

/-- The .value string of the ShaderType enum. -/
def ShaderType.value : ShaderType → String
  | ShaderType.fragment => "fragment"
  | ShaderType.vertex => "vertex"
  | ShaderType.compute => "compute"

/-- Shader from amber_converter.py. -/
structure Shader where
  shader_type : ShaderType
  shader_spirv_asm : Option String
  shader_source : Option String
  processing_info : String

/-- The common fields of ShaderJob from amber_converter.py. -/
structure ShaderJobBase where
  name_prefix : String
  uniform_definitions : String
  uniform_bindings : String

/-- GraphicsShaderJob from amber_converter.py. -/
structure GraphicsShaderJob extends ShaderJobBase where
  vertex_shader : Shader
  fragment_shader : Shader

/-- ComputeShaderJob from amber_converter.py. -/
structure ComputeShaderJob extends ShaderJobBase where
  compute_shader : Shader
  initial_buffer_definition_template : String
  empty_buffer_definition_template : String
  num_groups_def : String

/-- The ShaderJob runtime tag: a job is a GraphicsShaderJob or a
ComputeShaderJob (the isinstance checks of the Python become a match). -/
inductive ShaderJob where
  | graphics (j : GraphicsShaderJob)
  | compute (j : ComputeShaderJob)

/-- ShaderJobBasedAmberTest from amber_converter.py. -/
structure ShaderJobBasedAmberTest where
  reference : Option ShaderJob
  variant : ShaderJob

/-- get_amber_script_header from amber_converter.py.  The accumulating
result variable of the Python is embedded by shadowing; the two
get_text_as_comment calls can raise, so the result is an Except. -/
def get_amber_script_header (amberfy_settings : AmberfySettings) : Except String String := do
  let result := "#!amber\n"
  let result ←
    if truthyStr amberfy_settings.copyright_header_text then do
      let c ← get_text_as_comment (amberfy_settings.copyright_header_text.getD "")
      Except.ok (result ++ "\n" ++ c ++ "\n\n")
    else Except.ok result
  let result :=
    if amberfy_settings.add_generated_comment then result ++ "\n# Generated.\n\n" else result
  let result :=
    if amberfy_settings.add_graphics_fuzz_comment then
      result ++ "\n# A test for a bug found by GraphicsFuzz.\n"
    else result
  let result :=
    if truthyStr amberfy_settings.short_description then
      result ++ "\n# Short description: " ++ amberfy_settings.short_description.getD "" ++ "\n"
    else result
  let result ←
    if truthyStr amberfy_settings.comment_text then do
      let c ← get_text_as_comment (amberfy_settings.comment_text.getD "")
      Except.ok (result ++ "\n" ++ c ++ "\n")
    else Except.ok result
  let result :=
    if truthyList amberfy_settings.spirv_opt_args then
      result ++ "\n" ++
        get_spirv_opt_args_comment (amberfy_settings.spirv_opt_args.getD [])
          amberfy_settings.spirv_opt_hash ++ "\n"
    else result
  let result :=
    if !amberfy_settings.use_default_fence_timeout then
      result ++ "\nSET ENGINE_DATA fence_timeout_ms " ++ toString AMBER_FENCE_TIMEOUT_MS ++ "\n"
    else result
  Except.ok result

/-- The copyright section of the header: empty when the setting is falsy. -/
def copyright_section (s : AmberfySettings) : Except String String :=
  if truthyStr s.copyright_header_text then do
    let c ← get_text_as_comment (s.copyright_header_text.getD "")
    Except.ok ("\n" ++ c ++ "\n\n")
  else Except.ok ""

/-- The free-text comment section of the header. -/
def comment_section (s : AmberfySettings) : Except String String :=
  if truthyStr s.comment_text then do
    let c ← get_text_as_comment (s.comment_text.getD "")
    Except.ok ("\n" ++ c ++ "\n")
  else Except.ok ""

/-- The generated-marker section of the header. -/
def generated_section (s : AmberfySettings) : String :=
  if s.add_generated_comment then "\n# Generated.\n\n" else ""

/-- The fuzzer-provenance section of the header. -/
def graphics_fuzz_section (s : AmberfySettings) : String :=
  if s.add_graphics_fuzz_comment then "\n# A test for a bug found by GraphicsFuzz.\n" else ""

/-- The short-description section of the header. -/
def short_description_section (s : AmberfySettings) : String :=
  if truthyStr s.short_description then
    "\n# Short description: " ++ s.short_description.getD "" ++ "\n"
  else ""

/-- The optimizer-provenance section of the header (covers both
spirv_opt_args and spirv_opt_hash). -/
def spirv_opt_section (s : AmberfySettings) : String :=
  if truthyList s.spirv_opt_args then
    "\n" ++ get_spirv_opt_args_comment (s.spirv_opt_args.getD []) s.spirv_opt_hash ++ "\n"
  else ""

/-- The fence-timeout section of the header. -/
def fence_section (s : AmberfySettings) : String :=
  if !s.use_default_fence_timeout then
    "\nSET ENGINE_DATA fence_timeout_ms " ++ toString AMBER_FENCE_TIMEOUT_MS ++ "\n"
  else ""

/-- The header as its ordered list of eight sections; joining them is proved
equal to get_amber_script_header. -/
def header_sections (s : AmberfySettings) : Except String (List String) := do
  let cp ← copyright_section s
  let cm ← comment_section s
  Except.ok ["#!amber\n", cp, generated_section s, graphics_fuzz_section s,
    short_description_section s, cm, spirv_opt_section s, fence_section s]

/-- get_amber_script_shader_def from amber_converter.py. -/
def get_amber_script_shader_def (shader : Shader) (name : String) : Except String String := do
  let result := ""
  let result ←
    if truthyStr shader.shader_source then do
      let c ← get_text_as_comment (shader.shader_source.getD "")
      Except.ok (result ++ "\n# " ++ name ++ " is derived from the following GLSL:\n" ++ c)
    else Except.ok result
  let result :=
    if truthyStr shader.shader_spirv_asm then
      result ++ "\nSHADER " ++ shader.shader_type.value ++ " " ++ name ++ " SPIRV-ASM\n" ++
        shader.shader_spirv_asm.getD "" ++ "END\n"
    else
      result ++ "\nSHADER " ++ shader.shader_type.value ++ " " ++ name ++ " PASSTHROUGH\n"
  Except.ok result

/-- The body the graphics assembler emits for one job (the body of the
for-loop over jobs in graphics_shader_job_amber_test_to_amber_script). -/
def graphics_job_script (job : GraphicsShaderJob) : Except String String := do
  let pfx := job.name_prefix
  let vertex_shader_name := pfx ++ "_vertex_shader"
  let fragment_shader_name := pfx ++ "_fragment_shader"
  let vdef ← get_amber_script_shader_def job.vertex_shader vertex_shader_name
  let fdef ← get_amber_script_shader_def job.fragment_shader fragment_shader_name
  Except.ok (vdef ++ fdef ++
    "\n" ++ job.uniform_definitions ++
    "\nBUFFER " ++ pfx ++ "_framebuffer FORMAT B8G8R8A8_UNORM\n" ++
    "\nPIPELINE graphics " ++ pfx ++ "_pipeline\n" ++
    "  ATTACH " ++ vertex_shader_name ++ "\n" ++
    "  ATTACH " ++ fragment_shader_name ++ "\n" ++
    "  FRAMEBUFFER_SIZE 256 256\n" ++
    "  BIND BUFFER " ++ pfx ++ "_framebuffer AS color LOCATION 0\n" ++
    job.uniform_bindings ++
    "END\n" ++
    "CLEAR_COLOR " ++ pfx ++ "_pipeline 0 0 0 255\n" ++
    "\nCLEAR " ++ pfx ++ "_pipeline\n" ++
    "RUN " ++ pfx ++ "_pipeline DRAW_RECT POS 0 0 SIZE 256 256\n" ++
    "\n")

/-- The for-loop of the graphics assembler over its job list. -/
def graphics_jobs_scripts : List GraphicsShaderJob → Except String String
  | [] => Except.ok ""
  | job :: rest => do
    let s ← graphics_job_script job
    let r ← graphics_jobs_scripts rest
    Except.ok (s ++ r)

/-- The fuzzy-comparison loop of the graphics assembler: one directive per
job of index 1 and up, comparing against job 0. -/
def fuzzy_compare_directives (jobs : List GraphicsShaderJob) : List String :=
  match jobs with
  | [] => []
  | job0 :: rest =>
    rest.map (fun job =>
      "EXPECT " ++ job0.name_prefix ++ "_framebuffer RMSE_BUFFER " ++
        job.name_prefix ++ "_framebuffer TOLERANCE 7")

/-- graphics_shader_job_amber_test_to_amber_script from amber_converter.py.
The isinstance assertions become matches whose failure is an Except.error. -/
def graphics_shader_job_amber_test_to_amber_script
    (shader_job_amber_test : ShaderJobBasedAmberTest)
    (amberfy_settings : AmberfySettings) : Except String String := do
  let variant ←
    match shader_job_amber_test.variant with
    | ShaderJob.graphics j => Except.ok j
    | ShaderJob.compute _ => Except.error "AssertionError"
  let header ← get_amber_script_header amberfy_settings
  let jobs ←
    match shader_job_amber_test.reference with
    | none => Except.ok [variant]
    | some (ShaderJob.graphics r) => Except.ok [r, variant]
    | some (ShaderJob.compute _) => Except.error "AssertionError"
  let bodies ← graphics_jobs_scripts jobs
  let cmp := (fuzzy_compare_directives jobs).foldl (fun acc d => acc ++ d) ""
  let result := header ++ bodies ++ cmp
  let result :=
    if truthyStr amberfy_settings.extra_commands then
      result ++ amberfy_settings.extra_commands.getD ""
    else result
  Except.ok result

/-- The binding directive amberscript_uniform_buffer_bind emits for one
non-reserved key (empty for a compute value, which would raise). -/
def bind_line (pfx : String) (kv : String × JEntry) : String :=
  match kv.2 with
  | JEntry.uniformE e =>
    "  BIND BUFFER " ++ pfx ++ "_" ++ kv.1 ++
      " AS uniform DESCRIPTOR_SET 0 BINDING " ++ toString e.binding ++ "\n"
  | JEntry.computeE _ => ""

/-- The declaration block amberscript_uniform_buffer_def emits for one
non-reserved key (empty for a compute value, which would raise). -/
def def_block (pfx : String) (kv : String × JEntry) : String :=
  match kv.2 with
  | JEntry.uniformE e =>
    "# " ++ kv.1 ++ "\n" ++
      "BUFFER " ++ pfx ++ "_" ++ kv.1 ++ " DATA_TYPE " ++
      ((uniform_types.lookup e.func).getD "") ++ " DATA\n" ++
      uniform_args_render e.args ++ "\n" ++ "END\n"
  | JEntry.computeE _ => ""

/-- Concrete compute job of the round-trip scenario: num_groups [8, 1, 1]
and a single integer SSBO field with data [0, 0, 0, 0]. -/
def comp_int_four_zeros : ShaderJobJson :=
  [("$compute", JEntry.computeE
    { num_groups := [8, 1, 1],
      buffer := { binding := 0,
                  fields := [{ type := "int",
                               data := [PyVal.pint 0, PyVal.pint 0, PyVal.pint 0, PyVal.pint 0] }] } })]

/-- Concrete compute metadata with one int field holding [5, 7]. -/
def cinfo_five_seven : ComputeInfo :=
  { num_groups := [1, 1, 1],
    buffer := { binding := 0,
                fields := [{ type := "int", data := [PyVal.pint 5, PyVal.pint 7] }] } }

/-- Concrete compute job wrapping cinfo_five_seven. -/
def comp_int_five_seven : ShaderJobJson := [("$compute", JEntry.computeE cinfo_five_seven)]

/-- Concrete uniform entry for a two-float setter at binding 2. -/
def res_entry_w : UniformEntry :=
  { func := "glUniform2f", args := [PyVal.pfloat "256.0", PyVal.pfloat "256.0"], binding := 2 }

/-- Concrete uniform map holding one uniform and the reserved compute key. -/
def uni_map_w : ShaderJobJson :=
  [("res", JEntry.uniformE res_entry_w), ("$compute", JEntry.computeE cinfo_five_seven)]

/-- Concrete compute job with a non-empty field list of one supported type
whose only field has an empty data list. -/
def comp_int_empty_data : ShaderJobJson :=
  [("$compute", JEntry.computeE
    { num_groups := [1, 1, 1],
      buffer := { binding := 0, fields := [{ type := "int", data := [] }] } })]

/-- Concrete compute job with a single boolean-typed SSBO field. -/
def comp_bool_field : ShaderJobJson :=
  [("$compute", JEntry.computeE
    { num_groups := [1, 1, 1],
      buffer := { binding := 0, fields := [{ type := "bool", data := [PyVal.pint 1] }] } })]

/-- Concrete compute job with an empty SSBO field list. -/
def comp_no_fields : ShaderJobJson :=
  [("$compute", JEntry.computeE
    { num_groups := [1, 1, 1], buffer := { binding := 0, fields := [] } })]

/-- Concrete compute job with SSBO fields of mixed types. -/
def comp_mixed_fields : ShaderJobJson :=
  [("$compute", JEntry.computeE
    { num_groups := [1, 1, 1],
      buffer := { binding := 0,
                  fields := [{ type := "int", data := [PyVal.pint 0] },
                             { type := "float", data := [PyVal.pfloat "1.0"] }] } })]

/-- A concrete vertex shader with assembly and no source. -/
def vert_shader_w : Shader :=
  { shader_type := ShaderType.vertex, shader_spirv_asm := some "vert asm\n",
    shader_source := none, processing_info := "" }

/-- A concrete fragment shader with assembly and no source. -/
def frag_shader_w : Shader :=
  { shader_type := ShaderType.fragment, shader_spirv_asm := some "frag asm\n",
    shader_source := none, processing_info := "" }

/-- A concrete reference graphics job. -/
def ref_job_w : GraphicsShaderJob :=
  { name_prefix := "reference", uniform_definitions := "", uniform_bindings := "",
    vertex_shader := vert_shader_w, fragment_shader := frag_shader_w }

/-- A concrete variant graphics job. -/
def var_job_w : GraphicsShaderJob :=
  { name_prefix := "variant", uniform_definitions := "", uniform_bindings := "",
    vertex_shader := vert_shader_w, fragment_shader := frag_shader_w }

/- ------------------------------------------------------------------ -/
/- Helper lemmas                                                      -/
/- ------------------------------------------------------------------ -/

theorem str_foldl_append (l : List String) (a b : String) :
    l.foldl (fun r s => r ++ s) (a ++ b) = a ++ l.foldl (fun r s => r ++ s) b := by
  induction l generalizing b with
  | nil => rfl
  | cons x xs ih =>
    simp only [List.foldl]
    rw [String.append_assoc, ih]

theorem str_join_cons (s : String) (l : List String) :
    String.join (s :: l) = s ++ String.join l := by
  show List.foldl (fun r t => r ++ t) ("" ++ s) l = s ++ List.foldl (fun r t => r ++ t) "" l
  have h1 : ("" : String) ++ s = s ++ "" := by
    rw [String.append_empty]
    rfl
  rw [h1, str_foldl_append]

theorem dedup_length_ne_one {l : List String} {a b : String}
    (ha : a ∈ l) (hb : b ∈ l) (hab : a ≠ b) : l.dedup.length ≠ 1 := by
  intro h1
  obtain ⟨x, hx⟩ := List.length_eq_one.mp h1
  have ha' : a ∈ l.dedup := List.mem_dedup.mpr ha
  have hb' : b ∈ l.dedup := List.mem_dedup.mpr hb
  rw [hx] at ha' hb'
  simp only [List.mem_singleton] at ha' hb'
  exact hab (ha'.trans hb'.symm)

/- ------------------------------------------------------------------ -/
/- Claims                                                             -/
/- ------------------------------------------------------------------ -/

/-- Claim C7: for a compute job JSON whose compute block has num_groups
[8, 1, 1] and a single integer SSBO field with data [0, 0, 0, 0],
amberscript_comp_num_groups_def returns "8 1 1", amberscript_comp_buff_def
without make_empty_buffer emits a literal-data buffer declaration listing
four zeros, and with make_empty_buffer it emits a declaration of size 4
filled with one zero. -/
theorem claim_C7 :
    amberscript_comp_num_groups_def comp_int_four_zeros = Except.ok "8 1 1" ∧
    amberscript_comp_buff_def comp_int_four_zeros false =
      Except.ok "BUFFER \x7b\x7d DATA_TYPE int32 DATA\n 0 0 0 0\nEND\n" ∧
    amberscript_comp_buff_def comp_int_four_zeros true =
      Except.ok "BUFFER \x7b\x7d DATA_TYPE int32 SIZE 4 0\n" :=
  ⟨rfl, rfl, rfl⟩

/-- Claim C2 counterexample: comp_int_empty_data has a non-empty field list
whose single field has the supported type int, so it is well-formed in the
claim's sense, yet with make_empty_buffer the function raises (IndexError on
the first flattened element) instead of declaring a buffer. -/
theorem claim_C2_counterexample :
    amberscript_comp_buff_def comp_int_empty_data true = Except.error "IndexError" ∧
    ssbo_types.lookup "int" = some "int32" :=
  ⟨rfl, rfl⟩

/-- Claim C2 (amended): for every compute-metadata block with a non-empty
field list, all fields of one supported type, and at least one flattened
data element, amberscript_comp_buff_def with make_empty_buffer declares a
buffer whose size is the total flattened element count and whose single
fill value is the first flattened element. -/
theorem claim_C2 (comp : ShaderJobJson) (c : ComputeInfo)
    (f0 : ComputeField) (rest : List ComputeField) (tok : String)
    (d0 : PyVal) (drest : List PyVal)
    (hc : comp.lookup "$compute" = some (JEntry.computeE c))
    (hf : c.buffer.fields = f0 :: rest)
    (hset : (c.buffer.fields.map (fun field => field.type)).dedup.length = 1)
    (htok : ssbo_types.lookup f0.type = some tok)
    (hd : (c.buffer.fields.map (fun field => field.data)).flatten = d0 :: drest) :
    amberscript_comp_buff_def comp true =
      Except.ok ("BUFFER \x7b\x7d DATA_TYPE " ++ tok ++ " SIZE " ++
        toString ((c.buffer.fields.map (fun field => field.data)).flatten.length) ++
        " " ++ pyStr d0 ++ "\n") := by
  rw [hf] at hset hd
  unfold amberscript_comp_buff_def
  rw [hc]
  simp only [check]
  rw [if_pos (show (some (JEntry.computeE c)).isSome = true from rfl)]
  dsimp only [Bind.bind, Except.bind]
  rw [hf]
  rw [if_pos (show 0 < (f0 :: rest).length by simp), if_pos hset]
  dsimp only [Bind.bind, Except.bind]
  rw [htok, hd]
  simp [List.length_map]

/-- Claim C2 witness: the amended theorem applied at a concrete block with
one int field holding [5, 7]. -/
theorem claim_C2_witness :
    amberscript_comp_buff_def comp_int_five_seven true =
      Except.ok "BUFFER \x7b\x7d DATA_TYPE int32 SIZE 2 5\n" :=
  claim_C2 comp_int_five_seven cinfo_five_seven
    { type := "int", data := [PyVal.pint 5, PyVal.pint 7] } [] "int32"
    (PyVal.pint 5) [PyVal.pint 7] rfl rfl rfl rfl rfl

/-- Claim C4: a compute-metadata block with an empty SSBO field list, or
with two fields of different types, makes amberscript_comp_buff_def raise
the MalformedComputeBuffer assertion (embedded as Except.error, so no
output is produced), for either value of make_empty_buffer. -/
theorem claim_C4 (comp : ShaderJobJson) (c : ComputeInfo) (make_empty_buffer : Bool)
    (hc : comp.lookup "$compute" = some (JEntry.computeE c)) :
    (c.buffer.fields = [] →
      amberscript_comp_buff_def comp make_empty_buffer =
        Except.error "Compute shader test with empty SSBO") ∧
    (∀ f g, f ∈ c.buffer.fields → g ∈ c.buffer.fields → f.type ≠ g.type →
      amberscript_comp_buff_def comp make_empty_buffer =
        Except.error "All field types must be the same") := by
  constructor
  · intro hnil
    unfold amberscript_comp_buff_def
    rw [hc]
    simp only [check]
    rw [if_pos (show (some (JEntry.computeE c)).isSome = true from rfl)]
    dsimp only [Bind.bind, Except.bind]
    rw [hnil]
    rw [if_neg (by simp)]
  · intro f g hfm hgm hne
    have hlen : 0 < c.buffer.fields.length :=
      List.length_pos.mpr (List.ne_nil_of_mem hfm)
    have hdedup : ((c.buffer.fields.map (fun field => field.type)).dedup.length ≠ 1) :=
      dedup_length_ne_one (List.mem_map_of_mem (fun field => field.type) hfm)
        (List.mem_map_of_mem (fun field => field.type) hgm) hne
    unfold amberscript_comp_buff_def
    rw [hc]
    simp only [check]
    rw [if_pos (show (some (JEntry.computeE c)).isSome = true from rfl)]
    dsimp only [Bind.bind, Except.bind]
    rw [if_pos hlen, if_neg hdedup]

/-- Claim C4 witness: the theorem applied at the concrete empty-field-list
block and at the concrete mixed-type block. -/
theorem claim_C4_witness :
    amberscript_comp_buff_def comp_no_fields false =
      Except.error "Compute shader test with empty SSBO" ∧
    amberscript_comp_buff_def comp_mixed_fields false =
      Except.error "All field types must be the same" :=
  ⟨(claim_C4 comp_no_fields _ false rfl).1 rfl,
   (claim_C4 comp_mixed_fields _ false rfl).2
     { type := "int", data := [PyVal.pint 0] }
     { type := "float", data := [PyVal.pfloat "1.0"] }
     (by simp [comp_mixed_fields]) (by simp [comp_mixed_fields]) (by decide)⟩

/-- Claim C5 counterexample: a boolean-typed SSBO field does not yield the
unsigned-integer token; amberscript_comp_buff_def raises the
UnsupportedType error (the bool-to-uint translation is never applied to
SSBO field types). -/
theorem claim_C5_counterexample :
    amberscript_comp_buff_def comp_bool_field false =
      Except.error "Unsupported SSBO datum type: bool" ∧
    amberscript_comp_buff_def comp_bool_field true =
      Except.error "Unsupported SSBO datum type: bool" :=
  ⟨rfl, rfl⟩

/-- Claim C5 (amended): translate_type_for_amber maps bool to uint and is
the identity on every other type name, but amberscript_comp_buff_def does
not apply this translation when mapping SSBO field types, so a
boolean-typed SSBO field raises UnsupportedType. -/
theorem claim_C5 :
    translate_type_for_amber "bool" = "uint" ∧
    (∀ t, t ≠ "bool" → translate_type_for_amber t = t) ∧
    (∀ (comp : ShaderJobJson) (c : ComputeInfo) (f0 : ComputeField) (b : Bool),
      comp.lookup "$compute" = some (JEntry.computeE c) →
      c.buffer.fields = [f0] → f0.type = "bool" →
      amberscript_comp_buff_def comp b = Except.error "Unsupported SSBO datum type: bool") := by
  refine ⟨rfl, ?_, ?_⟩
  · intro t ht
    simp [translate_type_for_amber, ht]
  · intro comp c f0 b hc hf htype
    have hlook : ssbo_types.lookup f0.type = none := by
      rw [htype]
      rfl
    unfold amberscript_comp_buff_def
    rw [hc]
    simp only [check]
    rw [if_pos (show (some (JEntry.computeE c)).isSome = true from rfl)]
    dsimp only [Bind.bind, Except.bind]
    rw [hf]
    rw [if_pos (show 0 < ([f0] : List ComputeField).length by simp),
      if_pos (show (([f0] : List ComputeField).map (fun field => field.type)).dedup.length = 1 by simp)]
    dsimp only [Bind.bind, Except.bind]
    rw [hlook, htype]
    rfl

/-- Claim C5 witness: the amended theorem applied at the type name int and
at the concrete boolean-field block. -/
theorem claim_C5_witness :
    translate_type_for_amber "int" = "int" ∧
    amberscript_comp_buff_def comp_bool_field false =
      Except.error "Unsupported SSBO datum type: bool" :=
  ⟨claim_C5.2.1 "int" (by decide),
   claim_C5.2.2 comp_bool_field _ { type := "bool", data := [PyVal.pint 1] } false
     rfl rfl rfl⟩

/-- Claim C10: the non-empty-field-list check does not guarantee non-empty
flattened data: when every field's data list is empty (fields non-empty,
one supported type), the make_empty_buffer path raises IndexError while
the literal-data path returns a declaration listing zero values (a blank
DATA line). -/
theorem claim_C10 (comp : ShaderJobJson) (c : ComputeInfo) (f0 : ComputeField)
    (rest : List ComputeField) (tok : String)
    (hc : comp.lookup "$compute" = some (JEntry.computeE c))
    (hf : c.buffer.fields = f0 :: rest)
    (hset : (c.buffer.fields.map (fun field => field.type)).dedup.length = 1)
    (htok : ssbo_types.lookup f0.type = some tok)
    (hdata : ∀ field ∈ c.buffer.fields, field.data = []) :
    amberscript_comp_buff_def comp true = Except.error "IndexError" ∧
    amberscript_comp_buff_def comp false =
      Except.ok ("BUFFER \x7b\x7d DATA_TYPE " ++ tok ++ " DATA\n" ++ " " ++ "\n" ++ "END\n") := by
  have hflat : (c.buffer.fields.map (fun field => field.data)).flatten = [] := by
    rw [List.flatten_eq_nil_iff]
    intro l hl
    obtain ⟨field, hfield, hfl⟩ := List.mem_map.mp hl
    rw [← hfl]
    exact hdata field hfield
  rw [hf] at hset hflat
  constructor
  · unfold amberscript_comp_buff_def
    rw [hc]
    simp only [check]
    rw [if_pos (show (some (JEntry.computeE c)).isSome = true from rfl)]
    dsimp only [Bind.bind, Except.bind]
    rw [hf]
    rw [if_pos (show 0 < (f0 :: rest).length by simp), if_pos hset]
    dsimp only [Bind.bind, Except.bind]
    rw [htok, hflat]
    rfl
  · unfold amberscript_comp_buff_def
    rw [hc]
    simp only [check]
    rw [if_pos (show (some (JEntry.computeE c)).isSome = true from rfl)]
    dsimp only [Bind.bind, Except.bind]
    rw [hf]
    rw [if_pos (show 0 < (f0 :: rest).length by simp), if_pos hset]
    dsimp only [Bind.bind, Except.bind]
    rw [htok, hflat]
    dsimp only [List.map_nil]
    rw [show String.intercalate " " ([] : List String) = "" from rfl, String.append_empty]
    rfl

/-- Claim C10 witness: the theorem applied at the concrete block with one
int field whose data list is empty. -/
theorem claim_C10_witness :
    amberscript_comp_buff_def comp_int_empty_data false =
      Except.ok ("BUFFER \x7b\x7d DATA_TYPE " ++ "int32" ++ " DATA\n" ++ " " ++ "\n" ++ "END\n") :=
  (claim_C10 comp_int_empty_data _ { type := "int", data := [] } [] "int32"
    rfl rfl rfl rfl (by simp [comp_int_empty_data])).2

/-- Claim C3: for every uniform entry whose setter name is in the
uniform_types table (the scalar/vector int and float setters of 1-4
components and the matrix setters from 2x2 to 4x4),
amberscript_uniform_buffer_def emits the corresponding type token; for
every entry with any other setter name it raises the UnsupportedType
error (a ValueError in the source). -/
theorem claim_C3 :
    (∀ func tok, uniform_types.lookup func = some tok →
      ∀ (name : String) (e : UniformEntry) (pfx : String),
        name ≠ "$compute" → e.func = func →
        amberscript_uniform_buffer_def [(name, JEntry.uniformE e)] pfx =
          Except.ok ("# uniforms for " ++ pfx ++ "\n" ++ "\n" ++
            ("# " ++ name ++ "\n" ++
             "BUFFER " ++ pfx ++ "_" ++ name ++ " DATA_TYPE " ++ tok ++ " DATA\n" ++
             uniform_args_render e.args ++ "\n" ++ "END\n"))) ∧
    (∀ func, uniform_types.lookup func = none →
      ∀ (name : String) (e : UniformEntry) (pfx : String),
        name ≠ "$compute" → e.func = func →
        amberscript_uniform_buffer_def [(name, JEntry.uniformE e)] pfx =
          Except.error ("Error: unknown uniform type for function: " ++ func)) := by
  constructor
  · intro func tok hlook name e pfx hname hfunc
    simp [amberscript_uniform_buffer_def, amberscript_uniform_buffer_def_entries,
      hname, hfunc, hlook, String.append_empty, Bind.bind, Except.bind]
  · intro func hlook name e pfx hname hfunc
    simp [amberscript_uniform_buffer_def, amberscript_uniform_buffer_def_entries,
      hname, hfunc, hlook, Bind.bind, Except.bind]

/-- Claim C3 witness: the theorem applied at the supported setter
glUniform1f and at an unknown setter name. -/
theorem claim_C3_witness :
    amberscript_uniform_buffer_def
      [("myuniform", JEntry.uniformE { func := "glUniform1f", args := [PyVal.pfloat "42.0"], binding := 3 })]
      "variant" =
      Except.ok "# uniforms for variant\n\n# myuniform\nBUFFER variant_myuniform DATA_TYPE float DATA\n 42.0\nEND\n" ∧
    amberscript_uniform_buffer_def
      [("myuniform", JEntry.uniformE { func := "glUniformFoo", args := [], binding := 3 })]
      "variant" =
      Except.error "Error: unknown uniform type for function: glUniformFoo" :=
  ⟨claim_C3.1 "glUniform1f" "float" rfl "myuniform"
      { func := "glUniform1f", args := [PyVal.pfloat "42.0"], binding := 3 } "variant"
      (by decide) rfl,
   claim_C3.2 "glUniformFoo" rfl "myuniform"
      { func := "glUniformFoo", args := [], binding := 3 } "variant"
      (by decide) rfl⟩

theorem uniform_bind_skip_compute (m : ShaderJobJson) (pfx : String) :
    amberscript_uniform_buffer_bind m pfx =
      amberscript_uniform_buffer_bind (m.filter (fun kv => kv.1 != "$compute")) pfx := by
  induction m with
  | nil => rfl
  | cons kv rest ih =>
    obtain ⟨name, entry⟩ := kv
    by_cases hn : name = "$compute"
    · subst hn
      simp [amberscript_uniform_buffer_bind, List.filter, ih]
    · cases entry with
      | computeE c => simp [amberscript_uniform_buffer_bind, List.filter_cons, bne_iff_ne, hn]
      | uniformE e => simp [amberscript_uniform_buffer_bind, List.filter_cons, bne_iff_ne, hn, ih]

theorem uniform_def_entries_skip_compute (m : ShaderJobJson) (pfx : String) :
    amberscript_uniform_buffer_def_entries m pfx =
      amberscript_uniform_buffer_def_entries (m.filter (fun kv => kv.1 != "$compute")) pfx := by
  induction m with
  | nil => rfl
  | cons kv rest ih =>
    obtain ⟨name, entry⟩ := kv
    by_cases hn : name = "$compute"
    · subst hn
      simp [amberscript_uniform_buffer_def_entries, List.filter, ih]
    · cases entry with
      | computeE c => simp [amberscript_uniform_buffer_def_entries, List.filter_cons, bne_iff_ne, hn]
      | uniformE e => simp [amberscript_uniform_buffer_def_entries, List.filter_cons, bne_iff_ne, hn, ih]

theorem uniform_bind_renders (m : ShaderJobJson) (pfx : String)
    (h : ∀ kv ∈ m, kv.1 ≠ "$compute" → ∃ e, kv.2 = JEntry.uniformE e) :
    amberscript_uniform_buffer_bind m pfx =
      Except.ok (String.join ((m.filter (fun kv => kv.1 != "$compute")).map (bind_line pfx))) := by
  induction m with
  | nil => rfl
  | cons kv rest ih =>
    obtain ⟨name, entry⟩ := kv
    have hrest : ∀ kv ∈ rest, kv.1 ≠ "$compute" → ∃ e, kv.2 = JEntry.uniformE e :=
      fun kv hkv => h kv (List.mem_cons_of_mem _ hkv)
    by_cases hn : name = "$compute"
    · subst hn
      simp [amberscript_uniform_buffer_bind, List.filter, ih hrest]
    · obtain ⟨e, he⟩ := h (name, entry) (List.mem_cons_self _ _) hn
      simp only at he
      subst he
      simp [amberscript_uniform_buffer_bind, List.filter_cons, bne_iff_ne, hn, ih hrest,
        str_join_cons, bind_line, String.append_assoc, Bind.bind, Except.bind]

theorem uniform_def_entries_renders (m : ShaderJobJson) (pfx : String)
    (h : ∀ kv ∈ m, kv.1 ≠ "$compute" →
      ∃ e, kv.2 = JEntry.uniformE e ∧ (uniform_types.lookup e.func).isSome = true) :
    amberscript_uniform_buffer_def_entries m pfx =
      Except.ok (String.join ((m.filter (fun kv => kv.1 != "$compute")).map (def_block pfx))) := by
  induction m with
  | nil => rfl
  | cons kv rest ih =>
    obtain ⟨name, entry⟩ := kv
    have hrest : ∀ kv ∈ rest, kv.1 ≠ "$compute" →
        ∃ e, kv.2 = JEntry.uniformE e ∧ (uniform_types.lookup e.func).isSome = true :=
      fun kv hkv => h kv (List.mem_cons_of_mem _ hkv)
    by_cases hn : name = "$compute"
    · subst hn
      simp [amberscript_uniform_buffer_def_entries, List.filter, ih hrest]
    · obtain ⟨e, he, hsome⟩ := h (name, entry) (List.mem_cons_self _ _) hn
      simp only at he
      subst he
      obtain ⟨tok, htok⟩ := Option.isSome_iff_exists.mp hsome
      simp [amberscript_uniform_buffer_def_entries, List.filter_cons, bne_iff_ne, hn, htok, ih hrest,
        str_join_cons, def_block, String.append_assoc, Bind.bind, Except.bind]

/-- Claim C8: both amberscript_uniform_buffer_def and
amberscript_uniform_buffer_bind skip the reserved compute key (their output
on a map containing it equals the output on the map with every such key
removed), and they emit one binding directive, respectively one
declaration block, per remaining key, in the map's own iteration order. -/
theorem claim_C8 :
    (∀ (m : ShaderJobJson) (pfx : String),
      amberscript_uniform_buffer_bind m pfx =
        amberscript_uniform_buffer_bind (m.filter (fun kv => kv.1 != "$compute")) pfx) ∧
    (∀ (m : ShaderJobJson) (pfx : String),
      amberscript_uniform_buffer_def m pfx =
        amberscript_uniform_buffer_def (m.filter (fun kv => kv.1 != "$compute")) pfx) ∧
    (∀ (m : ShaderJobJson) (pfx : String),
      (∀ kv ∈ m, kv.1 ≠ "$compute" → ∃ e, kv.2 = JEntry.uniformE e) →
      amberscript_uniform_buffer_bind m pfx =
        Except.ok (String.join ((m.filter (fun kv => kv.1 != "$compute")).map (bind_line pfx)))) ∧
    (∀ (m : ShaderJobJson) (pfx : String),
      (∀ kv ∈ m, kv.1 ≠ "$compute" →
        ∃ e, kv.2 = JEntry.uniformE e ∧ (uniform_types.lookup e.func).isSome = true) →
      amberscript_uniform_buffer_def m pfx =
        Except.ok ("# uniforms for " ++ pfx ++ "\n" ++ "\n" ++
          String.join ((m.filter (fun kv => kv.1 != "$compute")).map (def_block pfx)))) := by
  refine ⟨uniform_bind_skip_compute, ?_, uniform_bind_renders, ?_⟩
  · intro m pfx
    unfold amberscript_uniform_buffer_def
    rw [uniform_def_entries_skip_compute]
  · intro m pfx h
    unfold amberscript_uniform_buffer_def
    rw [uniform_def_entries_renders m pfx h]
    rfl

/-- Claim C8 witness: the theorem's render parts applied to a concrete map
holding one uniform and the reserved compute key. -/
theorem claim_C8_witness :
    amberscript_uniform_buffer_bind uni_map_w "reference" =
      Except.ok "  BIND BUFFER reference_res AS uniform DESCRIPTOR_SET 0 BINDING 2
" ∧
    amberscript_uniform_buffer_def uni_map_w "reference" =
      Except.ok "# uniforms for reference

# res
BUFFER reference_res DATA_TYPE vec2<float> DATA
 256.0 256.0
END
" := by
  constructor
  · exact claim_C8.2.2.1 uni_map_w "reference" (by
      intro kv hkv hne
      simp only [uni_map_w, List.mem_cons, List.not_mem_nil, or_false] at hkv
      rcases hkv with h | h
      · subst h
        exact ⟨res_entry_w, rfl⟩
      · subst h
        exact absurd rfl hne)
  · exact claim_C8.2.2.2 uni_map_w "reference" (by
      intro kv hkv hne
      simp only [uni_map_w, List.mem_cons, List.not_mem_nil, or_false] at hkv
      rcases hkv with h | h
      · subst h
        exact ⟨res_entry_w, rfl, rfl⟩
      · subst h
        exact absurd rfl hne)

/-- The default AmberfySettings (all fields at their defaults). -/
def settings0 : AmberfySettings := {}

theorem text_comment_all_empty (text : String)
    (h : ∀ l ∈ pySplitNl text, l = "") :
    get_text_as_comment text = Except.error "IndexError" := by
  have hd : (pySplitNl text).dropWhile String.isEmpty = [] :=
    List.dropWhile_eq_nil_iff.mpr (fun x hx => by rw [h x hx]; rfl)
  simp [get_text_as_comment, strip_empty_lines, hd, Bind.bind, Except.bind]

/-- Claim C9: get_text_as_comment succeeds exactly when its input has a
non-empty line; the blank-line-stripping step strips leading and trailing
empty lines (adding one changes nothing) but fails, as the IndexError of
indexing an empty list, on input of only empty lines; consequently
get_amber_script_header fails when the configured copyright or comment
text is non-empty but consists only of empty lines. -/
theorem claim_C9 :
    (∀ text, (∃ l ∈ pySplitNl text, l ≠ "") →
      ∃ out, get_text_as_comment text = Except.ok out) ∧
    (∀ text, (∀ l ∈ pySplitNl text, l = "") →
      get_text_as_comment text = Except.error "IndexError") ∧
    (∀ lines, (∃ l ∈ lines, l ≠ "") →
      strip_empty_lines ("" :: lines) = strip_empty_lines lines ∧
      strip_empty_lines (lines ++ [""]) = strip_empty_lines lines) ∧
    (∀ (s : AmberfySettings) (txt : String), txt ≠ "" →
      (∀ l ∈ pySplitNl txt, l = "") →
      get_amber_script_header { s with copyright_header_text := some txt } =
        Except.error "IndexError") ∧
    (∀ (s : AmberfySettings) (txt : String), s.copyright_header_text = none → txt ≠ "" →
      (∀ l ∈ pySplitNl txt, l = "") →
      get_amber_script_header { s with comment_text := some txt } =
        Except.error "IndexError") := by
  have hdrop : ∀ (lines : List String), (∃ l ∈ lines, l ≠ "") →
      lines.dropWhile String.isEmpty ≠ [] := by
    intro lines hex h0
    obtain ⟨l, hl, hne⟩ := hex
    exact hne ((String.isEmpty_iff l).mp (List.dropWhile_eq_nil_iff.mp h0 l hl))
  refine ⟨?_, ?_, ?_, ?_, ?_⟩
  · intro text hex
    have hne := hdrop (pySplitNl text) hex
    have hie : ((pySplitNl text).dropWhile String.isEmpty).isEmpty = false := by
      simp [List.isEmpty_iff, hne]
    simp [get_text_as_comment, strip_empty_lines, hie, Bind.bind, Except.bind]
  · intro text h
    exact text_comment_all_empty text h
  · intro lines hex
    have hne := hdrop lines hex
    have hie : (lines.dropWhile String.isEmpty).isEmpty = false := by
      simp [List.isEmpty_iff, hne]
    have hne2 : (lines.dropWhile String.isEmpty ++ [""]).isEmpty = false := by
      simp [List.isEmpty_iff]
    have hbl : ("" : String).isEmpty = true := rfl
    constructor
    · have hstep : ("" :: lines).dropWhile String.isEmpty = lines.dropWhile String.isEmpty := by
        rw [List.dropWhile_cons, if_pos hbl]
      unfold strip_empty_lines
      rw [hstep]
    · have hstep2 : (lines ++ [""]).dropWhile String.isEmpty =
          lines.dropWhile String.isEmpty ++ [""] := by
        rw [List.dropWhile_append, hie]
        simp
      unfold strip_empty_lines
      dsimp only
      rw [hstep2, hne2, hie]
      simp only [Bool.false_eq_true, if_false]
      rw [List.reverse_append]
      simp [List.dropWhile_cons, hbl]
  · intro s txt hne hall
    have herr : get_text_as_comment txt = Except.error "IndexError" :=
      text_comment_all_empty txt hall
    have hie : txt.isEmpty = false := by
      rcases h : txt.isEmpty with _ | _
      · rfl
      · exact absurd ((String.isEmpty_iff txt).mp h) hne
    simp [get_amber_script_header, truthyStr, hie, herr, Bind.bind, Except.bind]
  · intro s txt hc hne hall
    have herr : get_text_as_comment txt = Except.error "IndexError" :=
      text_comment_all_empty txt hall
    have hie : txt.isEmpty = false := by
      rcases h : txt.isEmpty with _ | _
      · rfl
      · exact absurd ((String.isEmpty_iff txt).mp h) hne
    simp [get_amber_script_header, truthyStr, hc, hie, herr, Bind.bind, Except.bind]

/-- Claim C9 witness: the theorem applied at text "a", at the all-blank
text of one newline, at the line list ["a"], and at settings whose
copyright (respectively comment) text is a single newline. -/
theorem claim_C9_witness :
    (∃ out, get_text_as_comment "a" = Except.ok out) ∧
    get_text_as_comment "\n" = Except.error "IndexError" ∧
    (strip_empty_lines ("" :: ["a"]) = strip_empty_lines ["a"] ∧
     strip_empty_lines (["a"] ++ [""]) = strip_empty_lines ["a"]) ∧
    get_amber_script_header { settings0 with copyright_header_text := some "\n" } =
      Except.error "IndexError" ∧
    get_amber_script_header { settings0 with comment_text := some "\n" } =
      Except.error "IndexError" :=
  ⟨claim_C9.1 "a" ⟨"a", by decide, by decide⟩,
   claim_C9.2.1 "\n" (by decide),
   claim_C9.2.2.1 ["a"] ⟨"a", by decide, by decide⟩,
   claim_C9.2.2.2.1 settings0 "\n" (by decide) (by decide),
   claim_C9.2.2.2.2 settings0 "\n" rfl (by decide) (by decide)⟩

theorem ite_append_right (c : Prop) [Decidable c] (r x : String) :
    (if c then r ++ x else r) = r ++ (if c then x else "") := by
  split
  · rfl
  · rw [String.append_empty]

theorem str_join_nil : String.join [] = "" := rfl

theorem str_empty_append (s : String) : "" ++ s = s := rfl

set_option maxHeartbeats 2000000 in
theorem header_join (s : AmberfySettings) :
    get_amber_script_header s = Except.map String.join (header_sections s) := by
  unfold get_amber_script_header header_sections copyright_section comment_section
  cases h1 : truthyStr s.copyright_header_text with
  | false =>
    cases h2 : truthyStr s.comment_text with
    | false =>
      cases hgen : s.add_generated_comment <;> cases hgf : s.add_graphics_fuzz_comment <;>
        cases hsd : truthyStr s.short_description <;> cases hargs : truthyList s.spirv_opt_args <;>
        cases hfence : s.use_default_fence_timeout <;>
        simp [h1, h2, hgen, hgf, hsd, hargs, hfence, Bind.bind, Except.bind, Except.map,
          str_join_cons, str_join_nil, str_empty_append, String.append_assoc,
          String.append_empty, generated_section, graphics_fuzz_section,
          short_description_section, spirv_opt_section, fence_section,
          -String.reduceAppend]
    | true =>
      cases g2 : get_text_as_comment (s.comment_text.getD "") with
      | error err =>
        simp [h1, h2, g2, Bind.bind, Except.bind, Except.map]
      | ok c2 =>
        cases hgen : s.add_generated_comment <;> cases hgf : s.add_graphics_fuzz_comment <;>
          cases hsd : truthyStr s.short_description <;> cases hargs : truthyList s.spirv_opt_args <;>
          cases hfence : s.use_default_fence_timeout <;>
          simp [h1, h2, g2, hgen, hgf, hsd, hargs, hfence, Bind.bind, Except.bind, Except.map,
            str_join_cons, str_join_nil, str_empty_append, String.append_assoc,
            String.append_empty, generated_section, graphics_fuzz_section,
            short_description_section, spirv_opt_section, fence_section,
            -String.reduceAppend]
  | true =>
    cases g1 : get_text_as_comment (s.copyright_header_text.getD "") with
    | error err =>
      simp [h1, g1, Bind.bind, Except.bind, Except.map]
    | ok c1 =>
      cases h2 : truthyStr s.comment_text with
      | false =>
        cases hgen : s.add_generated_comment <;> cases hgf : s.add_graphics_fuzz_comment <;>
          cases hsd : truthyStr s.short_description <;> cases hargs : truthyList s.spirv_opt_args <;>
          cases hfence : s.use_default_fence_timeout <;>
          simp [h1, h2, g1, hgen, hgf, hsd, hargs, hfence, Bind.bind, Except.bind, Except.map,
            str_join_cons, str_join_nil, str_empty_append, String.append_assoc,
            String.append_empty, generated_section, graphics_fuzz_section,
            short_description_section, spirv_opt_section, fence_section,
            -String.reduceAppend]
      | true =>
        cases g2 : get_text_as_comment (s.comment_text.getD "") with
        | error err =>
          simp [h1, h2, g1, g2, Bind.bind, Except.bind, Except.map]
        | ok c2 =>
          cases hgen : s.add_generated_comment <;> cases hgf : s.add_graphics_fuzz_comment <;>
            cases hsd : truthyStr s.short_description <;> cases hargs : truthyList s.spirv_opt_args <;>
            cases hfence : s.use_default_fence_timeout <;>
            simp [h1, h2, g1, g2, hgen, hgf, hsd, hargs, hfence, Bind.bind, Except.bind,
              Except.map, str_join_cons, str_join_nil, str_empty_append, String.append_assoc,
              String.append_empty, generated_section, graphics_fuzz_section,
              short_description_section, spirv_opt_section, fence_section,
              -String.reduceAppend]

theorem hs_erase_generated (s : AmberfySettings) (v : Bool) :
    Except.map (fun l => List.eraseIdx l 2) (header_sections { s with add_generated_comment := v }) =
      Except.map (fun l => List.eraseIdx l 2) (header_sections s) := by
  have e1 : copyright_section { s with add_generated_comment := v } = copyright_section s := rfl
  have e2 : comment_section { s with add_generated_comment := v } = comment_section s := rfl
  unfold header_sections
  rw [e1, e2]
  cases hcp : copyright_section s with
  | error e => simp [Bind.bind, Except.bind, Except.map]
  | ok cp =>
    cases hcm : comment_section s with
    | error e => simp [Bind.bind, Except.bind, Except.map]
    | ok cm =>
      simp [Bind.bind, Except.bind, Except.map, List.eraseIdx, generated_section,
        graphics_fuzz_section, short_description_section, spirv_opt_section, fence_section]

theorem hs_erase_graphics_fuzz (s : AmberfySettings) (v : Bool) :
    Except.map (fun l => List.eraseIdx l 3) (header_sections { s with add_graphics_fuzz_comment := v }) =
      Except.map (fun l => List.eraseIdx l 3) (header_sections s) := by
  have e1 : copyright_section { s with add_graphics_fuzz_comment := v } = copyright_section s := rfl
  have e2 : comment_section { s with add_graphics_fuzz_comment := v } = comment_section s := rfl
  unfold header_sections
  rw [e1, e2]
  cases hcp : copyright_section s with
  | error e => simp [Bind.bind, Except.bind, Except.map]
  | ok cp =>
    cases hcm : comment_section s with
    | error e => simp [Bind.bind, Except.bind, Except.map]
    | ok cm =>
      simp [Bind.bind, Except.bind, Except.map, List.eraseIdx, generated_section,
        graphics_fuzz_section, short_description_section, spirv_opt_section, fence_section]

theorem hs_erase_short_description (s : AmberfySettings) (v : Option String) :
    Except.map (fun l => List.eraseIdx l 4) (header_sections { s with short_description := v }) =
      Except.map (fun l => List.eraseIdx l 4) (header_sections s) := by
  have e1 : copyright_section { s with short_description := v } = copyright_section s := rfl
  have e2 : comment_section { s with short_description := v } = comment_section s := rfl
  unfold header_sections
  rw [e1, e2]
  cases hcp : copyright_section s with
  | error e => simp [Bind.bind, Except.bind, Except.map]
  | ok cp =>
    cases hcm : comment_section s with
    | error e => simp [Bind.bind, Except.bind, Except.map]
    | ok cm =>
      simp [Bind.bind, Except.bind, Except.map, List.eraseIdx, generated_section,
        graphics_fuzz_section, short_description_section, spirv_opt_section, fence_section]

theorem hs_erase_spirv_opt_args (s : AmberfySettings) (v : Option (List String)) :
    Except.map (fun l => List.eraseIdx l 6) (header_sections { s with spirv_opt_args := v }) =
      Except.map (fun l => List.eraseIdx l 6) (header_sections s) := by
  have e1 : copyright_section { s with spirv_opt_args := v } = copyright_section s := rfl
  have e2 : comment_section { s with spirv_opt_args := v } = comment_section s := rfl
  unfold header_sections
  rw [e1, e2]
  cases hcp : copyright_section s with
  | error e => simp [Bind.bind, Except.bind, Except.map]
  | ok cp =>
    cases hcm : comment_section s with
    | error e => simp [Bind.bind, Except.bind, Except.map]
    | ok cm =>
      simp [Bind.bind, Except.bind, Except.map, List.eraseIdx, generated_section,
        graphics_fuzz_section, short_description_section, spirv_opt_section, fence_section]

theorem hs_erase_spirv_opt_hash (s : AmberfySettings) (v : Option String) :
    Except.map (fun l => List.eraseIdx l 6) (header_sections { s with spirv_opt_hash := v }) =
      Except.map (fun l => List.eraseIdx l 6) (header_sections s) := by
  have e1 : copyright_section { s with spirv_opt_hash := v } = copyright_section s := rfl
  have e2 : comment_section { s with spirv_opt_hash := v } = comment_section s := rfl
  unfold header_sections
  rw [e1, e2]
  cases hcp : copyright_section s with
  | error e => simp [Bind.bind, Except.bind, Except.map]
  | ok cp =>
    cases hcm : comment_section s with
    | error e => simp [Bind.bind, Except.bind, Except.map]
    | ok cm =>
      simp [Bind.bind, Except.bind, Except.map, List.eraseIdx, generated_section,
        graphics_fuzz_section, short_description_section, spirv_opt_section, fence_section]

theorem hs_erase_fence (s : AmberfySettings) (v : Bool) :
    Except.map (fun l => List.eraseIdx l 7) (header_sections { s with use_default_fence_timeout := v }) =
      Except.map (fun l => List.eraseIdx l 7) (header_sections s) := by
  have e1 : copyright_section { s with use_default_fence_timeout := v } = copyright_section s := rfl
  have e2 : comment_section { s with use_default_fence_timeout := v } = comment_section s := rfl
  unfold header_sections
  rw [e1, e2]
  cases hcp : copyright_section s with
  | error e => simp [Bind.bind, Except.bind, Except.map]
  | ok cp =>
    cases hcm : comment_section s with
    | error e => simp [Bind.bind, Except.bind, Except.map]
    | ok cm =>
      simp [Bind.bind, Except.bind, Except.map, List.eraseIdx, generated_section,
        graphics_fuzz_section, short_description_section, spirv_opt_section, fence_section]

theorem hs_extra_commands (s : AmberfySettings) (v : Option String) :
    header_sections { s with extra_commands := v } = header_sections s := rfl

theorem hs_erase_copyright (s : AmberfySettings) (v : Option String) (l1 l2 : List String)
    (h1 : header_sections { s with copyright_header_text := v } = Except.ok l1)
    (h2 : header_sections s = Except.ok l2) :
    List.eraseIdx l1 1 = List.eraseIdx l2 1 := by
  have e2 : comment_section { s with copyright_header_text := v } = comment_section s := rfl
  unfold header_sections at h1 h2
  rw [e2] at h1
  cases hcp1 : copyright_section { s with copyright_header_text := v } with
  | error e =>
    rw [hcp1] at h1
    simp [Bind.bind, Except.bind] at h1
  | ok cp1 =>
    rw [hcp1] at h1
    cases hcp2 : copyright_section s with
    | error e =>
      rw [hcp2] at h2
      simp [Bind.bind, Except.bind] at h2
    | ok cp2 =>
      rw [hcp2] at h2
      cases hcm : comment_section s with
      | error e =>
        rw [hcm] at h1
        simp [Bind.bind, Except.bind] at h1
      | ok cm =>
        rw [hcm] at h1 h2
        simp only [Bind.bind, Except.bind, Except.ok.injEq] at h1 h2
        subst h1
        subst h2
        simp [List.eraseIdx, generated_section, graphics_fuzz_section,
          short_description_section, spirv_opt_section, fence_section]

theorem hs_erase_comment (s : AmberfySettings) (v : Option String) (l1 l2 : List String)
    (h1 : header_sections { s with comment_text := v } = Except.ok l1)
    (h2 : header_sections s = Except.ok l2) :
    List.eraseIdx l1 5 = List.eraseIdx l2 5 := by
  have e1 : copyright_section { s with comment_text := v } = copyright_section s := rfl
  unfold header_sections at h1 h2
  rw [e1] at h1
  cases hcp : copyright_section s with
  | error e =>
    rw [hcp] at h1
    simp [Bind.bind, Except.bind] at h1
  | ok cp =>
    rw [hcp] at h1 h2
    cases hcm1 : comment_section { s with comment_text := v } with
    | error e =>
      rw [hcm1] at h1
      simp [Bind.bind, Except.bind] at h1
    | ok cm1 =>
      rw [hcm1] at h1
      cases hcm2 : comment_section s with
      | error e =>
        rw [hcm2] at h2
        simp [Bind.bind, Except.bind] at h2
      | ok cm2 =>
        rw [hcm2] at h2
        simp only [Bind.bind, Except.bind, Except.ok.injEq] at h1 h2
        subst h1
        subst h2
        simp [List.eraseIdx, generated_section, graphics_fuzz_section,
          short_description_section, spirv_opt_section, fence_section]

/-- Claim C6: header emission is order-stable.  get_amber_script_header is
the join of the fixed ordered section list header_sections, and toggling
any one configuration field changes only the section it controls: erasing
that section's index yields identical section lists (for the two fallible
text sections this holds whenever both section lists are produced), and
extra_commands changes nothing in the header at all. -/
theorem claim_C6 :
    (∀ s, get_amber_script_header s = Except.map String.join (header_sections s)) ∧
    (∀ (s : AmberfySettings) (v : Option String) (l1 l2 : List String),
      header_sections { s with copyright_header_text := v } = Except.ok l1 →
      header_sections s = Except.ok l2 → List.eraseIdx l1 1 = List.eraseIdx l2 1) ∧
    (∀ (s : AmberfySettings) (v : Bool),
      Except.map (fun l => List.eraseIdx l 2) (header_sections { s with add_generated_comment := v }) =
        Except.map (fun l => List.eraseIdx l 2) (header_sections s)) ∧
    (∀ (s : AmberfySettings) (v : Bool),
      Except.map (fun l => List.eraseIdx l 3) (header_sections { s with add_graphics_fuzz_comment := v }) =
        Except.map (fun l => List.eraseIdx l 3) (header_sections s)) ∧
    (∀ (s : AmberfySettings) (v : Option String),
      Except.map (fun l => List.eraseIdx l 4) (header_sections { s with short_description := v }) =
        Except.map (fun l => List.eraseIdx l 4) (header_sections s)) ∧
    (∀ (s : AmberfySettings) (v : Option String) (l1 l2 : List String),
      header_sections { s with comment_text := v } = Except.ok l1 →
      header_sections s = Except.ok l2 → List.eraseIdx l1 5 = List.eraseIdx l2 5) ∧
    (∀ (s : AmberfySettings) (v : Option (List String)),
      Except.map (fun l => List.eraseIdx l 6) (header_sections { s with spirv_opt_args := v }) =
        Except.map (fun l => List.eraseIdx l 6) (header_sections s)) ∧
    (∀ (s : AmberfySettings) (v : Option String),
      Except.map (fun l => List.eraseIdx l 6) (header_sections { s with spirv_opt_hash := v }) =
        Except.map (fun l => List.eraseIdx l 6) (header_sections s)) ∧
    (∀ (s : AmberfySettings) (v : Bool),
      Except.map (fun l => List.eraseIdx l 7) (header_sections { s with use_default_fence_timeout := v }) =
        Except.map (fun l => List.eraseIdx l 7) (header_sections s)) ∧
    (∀ (s : AmberfySettings) (v : Option String),
      header_sections { s with extra_commands := v } = header_sections s) :=
  ⟨header_join, hs_erase_copyright, hs_erase_generated, hs_erase_graphics_fuzz,
   hs_erase_short_description, hs_erase_comment, hs_erase_spirv_opt_args,
   hs_erase_spirv_opt_hash, hs_erase_fence, hs_extra_commands⟩

/-- Claim C6 witness: the copyright and comment stability parts applied to
the default settings with text "hi". -/
theorem claim_C6_witness :
    List.eraseIdx ["#!amber\n", "\n# hi\n\n", "", "", "", "", "",
        "\nSET ENGINE_DATA fence_timeout_ms 60000\n"] 1 =
      List.eraseIdx ["#!amber\n", "", "", "", "", "", "",
        "\nSET ENGINE_DATA fence_timeout_ms 60000\n"] 1 ∧
    List.eraseIdx ["#!amber\n", "", "", "", "", "\n# hi\n", "",
        "\nSET ENGINE_DATA fence_timeout_ms 60000\n"] 5 =
      List.eraseIdx ["#!amber\n", "", "", "", "", "", "",
        "\nSET ENGINE_DATA fence_timeout_ms 60000\n"] 5 :=
  ⟨claim_C6.2.1 settings0 (some "hi") _ _ rfl rfl,
   claim_C6.2.2.2.2.2.1 settings0 (some "hi") _ _ rfl rfl⟩

/-- Claim C1: for every graphics test pair with both a reference and a
variant job, the assembler emits exactly one comparison directive (the
fuzzy-compare list is the singleton for jobs [reference, variant]), it
compares the variant framebuffer against the reference framebuffer, never
the reverse (the reference prefix fills the EXPECT slot and the variant
prefix the RMSE_BUFFER slot), with tolerance 7; the assembled script is
header ++ job bodies ++ that one directive ++ the extra commands. -/
theorem claim_C1 (amberfy_settings : AmberfySettings) (ref var : GraphicsShaderJob) (s : String)
    (h : graphics_shader_job_amber_test_to_amber_script
        { reference := some (ShaderJob.graphics ref), variant := ShaderJob.graphics var }
        amberfy_settings = Except.ok s) :
    fuzzy_compare_directives [ref, var] =
      ["EXPECT " ++ ref.name_prefix ++ "_framebuffer RMSE_BUFFER " ++ var.name_prefix ++
        "_framebuffer TOLERANCE 7"] ∧
    ∃ header refBody varBody,
      get_amber_script_header amberfy_settings = Except.ok header ∧
      graphics_job_script ref = Except.ok refBody ∧
      graphics_job_script var = Except.ok varBody ∧
      s = header ++ (refBody ++ varBody) ++
        ("EXPECT " ++ ref.name_prefix ++ "_framebuffer RMSE_BUFFER " ++ var.name_prefix ++
          "_framebuffer TOLERANCE 7") ++
        (if truthyStr amberfy_settings.extra_commands then
          amberfy_settings.extra_commands.getD "" else "") := by
  refine ⟨rfl, ?_⟩
  unfold graphics_shader_job_amber_test_to_amber_script at h
  dsimp only [Bind.bind, Except.bind] at h
  cases hh : get_amber_script_header amberfy_settings with
  | error e =>
    rw [hh] at h
    simp at h
  | ok header =>
    rw [hh] at h
    dsimp only [Bind.bind, Except.bind] at h
    cases hr : graphics_job_script ref with
    | error e =>
      simp [graphics_jobs_scripts, hr, Bind.bind, Except.bind] at h
    | ok refBody =>
      cases hv : graphics_job_script var with
      | error e =>
        simp [graphics_jobs_scripts, hr, hv, Bind.bind, Except.bind] at h
      | ok varBody =>
        simp only [graphics_jobs_scripts, hr, hv, Bind.bind, Except.bind] at h
        rw [ite_append_right] at h
        simp only [Except.ok.injEq] at h
        refine ⟨header, refBody, varBody, rfl, rfl, rfl, ?_⟩
        rw [← h]
        simp [fuzzy_compare_directives, String.append_assoc, String.append_empty,
          str_empty_append]

/-- Claim C1 witness: the theorem applied to concrete reference and variant
jobs under the default settings; the script value is recovered from the
assembler itself. -/
theorem claim_C1_witness :
    fuzzy_compare_directives [ref_job_w, var_job_w] =
      ["EXPECT " ++ ref_job_w.name_prefix ++ "_framebuffer RMSE_BUFFER " ++
        var_job_w.name_prefix ++ "_framebuffer TOLERANCE 7"] ∧
    ∃ header refBody varBody,
      get_amber_script_header settings0 = Except.ok header ∧
      graphics_job_script ref_job_w = Except.ok refBody ∧
      graphics_job_script var_job_w = Except.ok varBody ∧
      ((graphics_shader_job_amber_test_to_amber_script
          { reference := some (ShaderJob.graphics ref_job_w),
            variant := ShaderJob.graphics var_job_w } settings0).toOption.getD "") =
        header ++ (refBody ++ varBody) ++
        ("EXPECT " ++ ref_job_w.name_prefix ++ "_framebuffer RMSE_BUFFER " ++
          var_job_w.name_prefix ++ "_framebuffer TOLERANCE 7") ++
        (if truthyStr settings0.extra_commands then settings0.extra_commands.getD "" else "") :=
  claim_C1 settings0 ref_job_w var_job_w _ rfl

end AmberConverter
